import Mathlib

/-!
Shallow embedding of the momentum-backend calendar sync core
(src/api/index.js): the task filter, the event mapper, the per-user
sync handler (`POST /api/sync-calendar`) and the fan-out scheduler
(`GET /api/sync-all-users`), together with theorems settling the
specification claims about them.

Modelling conventions:
  * Firestore documents are passed in explicitly (`Option` for
    possibly-absent documents / fields).
  * JavaScript truthiness of an optional string field (`undefined` or
    `""` are falsy) is `fieldTruthy`.
  * `new Date(dueDate + "T" + time).toISOString()` is modelled by a
    parser of the `YYYY-MM-DD` / `HH:MM` shapes returning
    `Option LocalDateTime`; `none` corresponds to the `RangeError`
    thrown by `toISOString` on an invalid date.  That call sits
    *outside* the per-task try/catch in the source, so a `none`
    aborts the whole handler (modelled by `Except.error`), exactly
    mirroring the control flow of index.js lines 249-289.
  * The external calendar provider is a parameter
    `provider : CalendarEvent → InsertOutcome`; the handler records
    every insert attempt and every `console.error` line it emits.
-/

namespace Momentum

/-- A task document as stored in the user `data/tasks` list
(fields read by the sync handler). `startTime`/`endTime`/`category`
may be absent (`none`). -/
structure Task where
  id : String
  text : String
  dueDate : String
  startTime : Option String
  endTime : Option String
  category : Option String
  completed : Bool
  deriving Repr, DecidableEq

/-- JavaScript truthiness of an optional string field:
`undefined` and the empty string are falsy. -/
def fieldTruthy : Option String → Bool
  | none => false
  | some s => s != ""

/-- JavaScript `a || b` for an optional string: the fallback is used
when the field is falsy. -/
def jsOrDefault (v : Option String) (dflt : String) : String :=
  match v with
  | none => dflt
  | some s => if s == "" then dflt else s

/-- String interpolation of a possibly-absent field:
JavaScript renders `undefined` as the string "undefined". -/
def fieldStr : Option String → String
  | none => "undefined"
  | some s => s

/-- Source line 251: the regex replace
`task.id.replace(/[^a-zA-Z0-9]/g, "")`, scanning characters left to
right and deleting every one outside `[A-Za-z0-9]`. -/
def replaceNonAlnum : List Char → List Char
  | [] => []
  | c :: cs => if c.isAlphanum then c :: replaceNonAlnum cs else replaceNonAlnum cs

/-- Source line 251: `` `momentum${task.id.replace(/[^a-zA-Z0-9]/g, "")}` ``. -/
def eventId (t : Task) : String :=
  "momentum" ++ String.mk (replaceNonAlnum t.id.data)

/-- The spec-side `sanitize`: strip every character outside `[A-Za-z0-9]`. -/
def sanitize (s : String) : String :=
  String.mk (s.data.filter Char.isAlphanum)

/-- Source lines 240-242: the eligibility predicate
`task.startTime && task.endTime && !task.completed` (JS truthiness). -/
def eligible (t : Task) : Bool :=
  fieldTruthy t.startTime && fieldTruthy t.endTime && !t.completed

/-- Source lines 240-242: `allTasks.filter(...)`. -/
def tasksToSync (allTasks : List Task) : List Task :=
  allTasks.filter eligible

/-- A wall-clock date-time as assembled from `dueDate` and a
time-of-day field. -/
structure LocalDateTime where
  year : Nat
  month : Nat
  day : Nat
  hour : Nat
  minute : Nat
  deriving Repr, DecidableEq

/-- Value of a decimal digit character. -/
def digitVal (c : Char) : Option Nat :=
  if c.isDigit then some (c.toNat - 48) else none

/-- Parse a `YYYY-MM-DD` date string (the shape `new Date` accepts for
the task field `dueDate`); `none` models an invalid date. -/
def parseYMD (s : String) : Option (Nat × Nat × Nat) :=
  match s.data with
  | [y1, y2, y3, y4, '-', m1, m2, '-', d1, d2] => do
    let a ← digitVal y1
    let b ← digitVal y2
    let c ← digitVal y3
    let d ← digitVal y4
    let m ← digitVal m1
    let n ← digitVal m2
    let p ← digitVal d1
    let q ← digitVal d2
    let year := a * 1000 + b * 100 + c * 10 + d
    let month := m * 10 + n
    let day := p * 10 + q
    if 1 ≤ month ∧ month ≤ 12 ∧ 1 ≤ day ∧ day ≤ 31 then
      some (year, month, day)
    else none
  | _ => none

/-- Parse an `HH:MM` time-of-day string; `none` models an invalid time. -/
def parseHM (s : String) : Option (Nat × Nat) :=
  match s.data with
  | [h1, h2, ':', m1, m2] => do
    let a ← digitVal h1
    let b ← digitVal h2
    let c ← digitVal m1
    let d ← digitVal m2
    let hour := a * 10 + b
    let minute := c * 10 + d
    if hour ≤ 23 ∧ minute ≤ 59 then some (hour, minute) else none
  | _ => none

/-- `new Date(`${dueDate}T${time}`).toISOString()` (source lines
257, 261): succeeds exactly when the combined string is a valid local
date-time; `none` models the thrown `RangeError`. -/
def jsDateTime (dueDate time : String) : Option LocalDateTime := do
  let (y, mo, d) ← parseYMD dueDate
  let (h, mi) ← parseHM time
  pure ⟨y, mo, d, h, mi⟩

/-- The fixed configured time zone (source lines 258, 262). -/
def configuredTimeZone : String := "Asia/Kolkata"

/-- The calendar-event resource built at source lines 253-265. -/
structure CalendarEvent where
  summary : String
  description : String
  startDateTime : LocalDateTime
  startTimeZone : String
  endDateTime : LocalDateTime
  endTimeZone : String
  id : String
  deriving Repr, DecidableEq

/-- Source lines 251-265: build the event resource for one task.
`none` models the `RangeError` thrown by `toISOString` when a
date/time field does not parse — note this happens *before* the inner
try/catch of the insert. -/
def mkEvent (t : Task) : Option CalendarEvent := do
  let s ← jsDateTime t.dueDate (fieldStr t.startTime)
  let e ← jsDateTime t.dueDate (fieldStr t.endTime)
  pure
    { summary := t.text
      description := "Synced from Momentum: " ++ jsOrDefault t.category "Normal" ++ " Task"
      startDateTime := s
      startTimeZone := configuredTimeZone
      endDateTime := e
      endTimeZone := configuredTimeZone
      id := eventId t }

/-- Outcome of one `calendar.events.insert` call by the external
provider: created, HTTP 409 conflict (event id already exists), or any
other error carrying its message. -/
inductive InsertOutcome where
  | created
  | conflict409
  | otherError (msg : String)
  deriving Repr, DecidableEq

/-- The `console.error` line of the inner catch (source line 280). -/
def taskErrLog (t : Task) (msg : String) : String :=
  "Error syncing task " ++ t.id ++ ": " ++ msg

/-- Source lines 249-283: the per-task loop.  Carries the running
`syncedCount`, the insert attempts issued so far and the per-task
`console.error` lines.  Returns `Except.error` when building an event
throws (unparseable date/time), which escapes to the outer catch; the
inner try/catch only guards the insert call itself. -/
def syncLoop (provider : CalendarEvent → InsertOutcome) :
    List Task → Nat → List CalendarEvent → List String →
    Except (List CalendarEvent × List String) (Nat × List CalendarEvent × List String)
  | [], count, attempts, errs => .ok (count, attempts, errs)
  | t :: rest, count, attempts, errs =>
    match mkEvent t with
    | none => .error (attempts, errs)
    | some ev =>
      match provider ev with
      | .created => syncLoop provider rest (count + 1) (attempts ++ [ev]) errs
      | .conflict409 => syncLoop provider rest count (attempts ++ [ev]) errs
      | .otherError m => syncLoop provider rest count (attempts ++ [ev]) (errs ++ [taskErrLog t m])

/-- The delegated-access credential stored under
`users/{uid}/settings/integrations` in the `googleCalendar` map. -/
structure GoogleCalendarTokens where
  email : String
  access_token : String
  refresh_token : String
  deriving Repr, DecidableEq

/-- The `integrations` document; the `googleCalendar` sub-structure may
be absent. -/
structure CredDoc where
  googleCalendar : Option GoogleCalendarTokens
  deriving Repr, DecidableEq

/-- The `users/{uid}/data/tasks` document; its `list` field may be
absent (source line 239 falls back to `[]`). -/
structure TasksDoc where
  list : Option (List Task)
  deriving Repr, DecidableEq

/-- An HTTP response: status code and body text. -/
structure HttpResponse where
  status : Nat
  body : String
  deriving Repr, DecidableEq

/-- Observable result of one `POST /api/sync-calendar` invocation: the
HTTP response, the insert attempts issued to the provider, the
per-task `console.error` lines, and whether the task store was read. -/
structure SyncRun where
  response : HttpResponse
  attempts : List CalendarEvent
  taskErrors : List String
  readTasksStore : Bool
  deriving Repr, DecidableEq

/-- Body of the success response (source line 284). -/
def syncCompleteMsg (uid : String) (count : Nat) : String :=
  "Sync complete for " ++ uid ++ ". " ++ toString count ++ " new events created."

/-- Source lines 220-290: the `POST /api/sync-calendar` handler.
`credDoc` is the `settings/integrations` document (absent ⇒ `none`),
`tasksDoc` the `data/tasks` document, `provider` the external calendar
collaborator. -/
def syncCalendar (uid : String) (credDoc : Option CredDoc)
    (tasksDoc : Option TasksDoc) (provider : CalendarEvent → InsertOutcome) :
    SyncRun :=
  if uid == "" then
    { response := ⟨400, "No user ID provided."⟩
      attempts := [], taskErrors := [], readTasksStore := false }
  else
    match credDoc with
    | none =>
      { response := ⟨404, "User has not connected Google Calendar."⟩
        attempts := [], taskErrors := [], readTasksStore := false }
    | some cd =>
      match cd.googleCalendar with
      | none =>
        { response := ⟨404, "User has not connected Google Calendar."⟩
          attempts := [], taskErrors := [], readTasksStore := false }
      | some _tokens =>
        match tasksDoc with
        | none =>
          { response := ⟨200, "No tasks to sync."⟩
            attempts := [], taskErrors := [], readTasksStore := true }
        | some td =>
          let allTasks := td.list.getD []
          let toSync := tasksToSync allTasks
          match syncLoop provider toSync 0 [] [] with
          | .ok (count, attempts, errs) =>
            { response := ⟨200, syncCompleteMsg uid count⟩
              attempts := attempts, taskErrors := errs, readTasksStore := true }
          | .error (attempts, errs) =>
            { response := ⟨500, "Sync failed."⟩
              attempts := attempts, taskErrors := errs, readTasksStore := true }

/-- One document returned by the discovery query
`collectionGroup("settings").where("googleCalendar.access_token", ">", "")`:
its owning user id (`doc.ref.parent.parent.id`) and the indexed
access-token value. -/
structure SettingsDoc where
  parentUid : String
  accessToken : String
  deriving Repr, DecidableEq

/-- `[...new Set(ids)]` (source line 314): deduplicate keeping the
first occurrence of each element, in order. -/
def jsSetDedupAux (seen : List String) : List String → List String
  | [] => []
  | x :: xs =>
    if x ∈ seen then jsSetDedupAux seen xs
    else x :: jsSetDedupAux (x :: seen) xs

/-- `[...new Set(ids)]`: JavaScript `Set` iteration order is insertion
order, so this keeps the first occurrence of each id. -/
def jsSetDedup (l : List String) : List String :=
  jsSetDedupAux [] l

/-- Observable result of one `GET /api/sync-all-users` invocation: the
HTTP response and the fire-and-forget triggers issued, each recorded
with the response its `fetch` would eventually produce (never read by
the handler). -/
structure SchedulerRun where
  response : HttpResponse
  triggers : List (String × HttpResponse)

/-- Source lines 296-334: the `GET /api/sync-all-users` handler.
`settingsDocs` is the discovery-query input of the credential store;
the store returns only documents whose `googleCalendar.access_token`
is `> ""` (non-empty).  `syncOutcome uid` is the response the
triggered `POST /api/sync-calendar` for `uid` eventually produces; the
handler fires each trigger without awaiting it, so `syncOutcome` never
influences the response of the handler itself. -/
def syncAllUsers (authHeader cronSecret : String)
    (settingsDocs : List SettingsDoc)
    (syncOutcome : String → HttpResponse) : SchedulerRun :=
  if authHeader != "Bearer " ++ cronSecret then
    { response := ⟨401, "Unauthorized"⟩, triggers := [] }
  else
    let snapshot := settingsDocs.filter (fun d => d.accessToken != "")
    if snapshot.isEmpty then
      { response := ⟨200, "No users to sync."⟩, triggers := [] }
    else
      let userIds := snapshot.map (·.parentUid)
      let uniqueUserIds := jsSetDedup userIds
      let n := uniqueUserIds.length
      { response := ⟨200, "Sync triggered for " ++ toString n ++ " users."⟩
        triggers := uniqueUserIds.map (fun u => (u, syncOutcome u)) }

/-- The specification notion of a field being present: the field holds
a non-empty string value. -/
def presentField (v : Option String) : Prop :=
  ∃ s, v = some s ∧ s ≠ ""

/-- Number of `created` outcomes the per-task loop accumulates over a
list of tasks (meaningful when every task builds an event). -/
def createdCount (provider : CalendarEvent → InsertOutcome) : List Task → Nat
  | [] => 0
  | t :: rest =>
    match mkEvent t with
    | none => 0
    | some ev =>
      match provider ev with
      | .created => createdCount provider rest + 1
      | _ => createdCount provider rest

/-- The per-task `console.error` lines the loop accumulates over a
list of tasks (meaningful when every task builds an event). -/
def loopErrors (provider : CalendarEvent → InsertOutcome) : List Task → List String
  | [] => []
  | t :: rest =>
    match mkEvent t with
    | none => []
    | some ev =>
      match provider ev with
      | .otherError m => taskErrLog t m :: loopErrors provider rest
      | _ => loopErrors provider rest

/-- Demo credential document with the delegated-access sub-structure. -/
def demoCred : CredDoc :=
  { googleCalendar := some { email := "u@example.com", access_token := "tok", refresh_token := "ref" } }

/-- Eligible task with parseable date/times (first of the C3 scenario). -/
def dt1 : Task :=
  { id := "t1", text := "first", dueDate := "2024-01-01",
    startTime := some "09:00", endTime := some "10:00",
    category := none, completed := false }

/-- Eligible task whose `dueDate` does not parse (second of the C3 scenario). -/
def dt2bad : Task :=
  { id := "t2", text := "second", dueDate := "not-a-date",
    startTime := some "11:00", endTime := some "12:00",
    category := none, completed := false }

/-- Eligible task with parseable date/times (third of the C3 scenario). -/
def dt3 : Task :=
  { id := "t3", text := "third", dueDate := "2024-01-02",
    startTime := some "13:00", endTime := some "14:00",
    category := none, completed := false }

-- Shared lemmas --------------------------------------------------------------

theorem replaceNonAlnum_eq_filter (l : List Char) :
    replaceNonAlnum l = l.filter Char.isAlphanum := by
  induction l with
  | nil => rfl
  | cons c cs ih =>
    by_cases h : c.isAlphanum <;> simp [replaceNonAlnum, List.filter_cons, h, ih]

theorem fieldTruthy_iff (v : Option String) :
    fieldTruthy v = true ↔ presentField v := by
  cases v with
  | none => simp [fieldTruthy, presentField]
  | some s => simp [fieldTruthy, presentField, bne_iff_ne]

theorem jsSetDedupAux_mem (l : List String) (seen : List String) (u : String) :
    u ∈ jsSetDedupAux seen l ↔ u ∈ l ∧ u ∉ seen := by
  induction l generalizing seen with
  | nil => simp [jsSetDedupAux]
  | cons x xs ih =>
    by_cases hx : x ∈ seen
    · rw [jsSetDedupAux, if_pos hx, ih]
      constructor
      · exact fun h => ⟨List.mem_cons_of_mem x h.1, h.2⟩
      · rintro ⟨h1, h2⟩
        rcases List.mem_cons.mp h1 with rfl | h1
        · exact absurd hx h2
        · exact ⟨h1, h2⟩
    · rw [jsSetDedupAux, if_neg hx]
      constructor
      · intro h
        rcases List.mem_cons.mp h with rfl | h
        · exact ⟨List.mem_cons_self _ _, hx⟩
        · have h' := (ih (x :: seen)).mp h
          exact ⟨List.mem_cons_of_mem x h'.1,
            fun hu => h'.2 (List.mem_cons_of_mem x hu)⟩
      · rintro ⟨h1, h2⟩
        rcases List.mem_cons.mp h1 with rfl | h1
        · exact List.mem_cons_self _ _
        · by_cases hux : u = x
          · subst hux; exact List.mem_cons_self _ _
          · exact List.mem_cons_of_mem x ((ih (x :: seen)).mpr
              ⟨h1, fun hu => (List.mem_cons.mp hu).elim hux h2⟩)

theorem jsSetDedupAux_nodup (l seen : List String) :
    (jsSetDedupAux seen l).Nodup := by
  induction l generalizing seen with
  | nil => simp [jsSetDedupAux]
  | cons x xs ih =>
    by_cases hx : x ∈ seen
    · rw [jsSetDedupAux, if_pos hx]; exact ih seen
    · rw [jsSetDedupAux, if_neg hx]
      refine List.nodup_cons.mpr ⟨fun hmem => ?_, ih (x :: seen)⟩
      exact ((jsSetDedupAux_mem xs (x :: seen) x).mp hmem).2 (List.mem_cons_self _ _)

theorem jsSetDedup_mem (l : List String) (u : String) :
    u ∈ jsSetDedup l ↔ u ∈ l := by
  simp [jsSetDedup, jsSetDedupAux_mem]

theorem jsSetDedup_nodup (l : List String) : (jsSetDedup l).Nodup :=
  jsSetDedupAux_nodup l []

/-- When every task in the list builds an event, the per-task loop
never aborts: it returns the accumulated created count, one insert
attempt per task in order, and exactly the per-task error lines. -/
theorem syncLoop_ok (provider : CalendarEvent → InsertOutcome) (l : List Task)
    (h : ∀ t ∈ l, (mkEvent t).isSome) (c : Nat) (atts : List CalendarEvent)
    (errs : List String) :
    syncLoop provider l c atts errs =
      .ok (c + createdCount provider l, atts ++ l.filterMap mkEvent,
           errs ++ loopErrors provider l) := by
  induction l generalizing c atts errs with
  | nil => simp [syncLoop, createdCount, loopErrors]
  | cons t rest ih =>
    obtain ⟨ev, hev⟩ := Option.isSome_iff_exists.mp (h t (List.mem_cons_self t rest))
    have hrest : ∀ x ∈ rest, (mkEvent x).isSome :=
      fun x hx => h x (List.mem_cons_of_mem t hx)
    cases hp : provider ev with
    | created =>
      simp only [syncLoop, hev, hp, ih hrest, createdCount, loopErrors,
        List.filterMap_cons, Except.ok.injEq, Prod.mk.injEq, List.append_assoc,
        List.singleton_append]
      exact ⟨by omega, trivial⟩
    | conflict409 =>
      simp only [syncLoop, hev, hp, ih hrest, createdCount, loopErrors,
        List.filterMap_cons, Except.ok.injEq, Prod.mk.injEq, List.append_assoc,
        List.singleton_append]
    | otherError m =>
      simp only [syncLoop, hev, hp, ih hrest, createdCount, loopErrors,
        List.filterMap_cons, Except.ok.injEq, Prod.mk.injEq, List.append_assoc,
        List.singleton_append]

/-- When the tasks split as `pre ++ bad :: post` with every task of
`pre` building an event and `bad` failing to, the loop aborts exactly
at `bad`: the attempts are those of `pre`, the error lines are those
of `pre`, and nothing after `bad` is processed. -/
theorem syncLoop_abort (provider : CalendarEvent → InsertOutcome)
    (pre : List Task) (bad : Task) (post : List Task)
    (hpre : ∀ t ∈ pre, (mkEvent t).isSome) (hbad : mkEvent bad = none)
    (c : Nat) (atts : List CalendarEvent) (errs : List String) :
    syncLoop provider (pre ++ bad :: post) c atts errs =
      .error (atts ++ pre.filterMap mkEvent, errs ++ loopErrors provider pre) := by
  induction pre generalizing c atts errs with
  | nil => simp [syncLoop, hbad, loopErrors]
  | cons t rest ih =>
    obtain ⟨ev, hev⟩ := Option.isSome_iff_exists.mp (hpre t (List.mem_cons_self t rest))
    have hrest : ∀ x ∈ rest, (mkEvent x).isSome :=
      fun x hx => hpre x (List.mem_cons_of_mem t hx)
    cases hp : provider ev with
    | created =>
      simp only [List.cons_append, syncLoop, hev, hp]
      rw [List.append_eq, ih hrest]
      simp [loopErrors, hev, hp, List.filterMap_cons]
    | conflict409 =>
      simp only [List.cons_append, syncLoop, hev, hp]
      rw [List.append_eq, ih hrest]
      simp [loopErrors, hev, hp, List.filterMap_cons]
    | otherError m =>
      simp only [List.cons_append, syncLoop, hev, hp]
      rw [List.append_eq, ih hrest]
      simp [loopErrors, hev, hp, List.filterMap_cons]

theorem createdCount_conflict (l : List Task) :
    createdCount (fun _ => InsertOutcome.conflict409) l = 0 := by
  induction l with
  | nil => rfl
  | cons t rest ih => cases hev : mkEvent t <;> simp [createdCount, hev, ih]

theorem loopErrors_conflict (l : List Task) :
    loopErrors (fun _ => InsertOutcome.conflict409) l = [] := by
  induction l with
  | nil => rfl
  | cons t rest ih => cases hev : mkEvent t <;> simp [loopErrors, hev, ih]

theorem length_filterMap_mkEvent (l : List Task)
    (h : ∀ t ∈ l, (mkEvent t).isSome) :
    (l.filterMap mkEvent).length = l.length := by
  induction l with
  | nil => rfl
  | cons t rest ih =>
    obtain ⟨ev, hev⟩ := Option.isSome_iff_exists.mp (h t (List.mem_cons_self t rest))
    simp [List.filterMap_cons, hev,
      ih (fun x hx => h x (List.mem_cons_of_mem t hx))]

/-- Every `otherError` outcome of an attempted task leaves its
`console.error` line in the accumulated loop errors. -/
theorem loopErrors_mem (provider : CalendarEvent → InsertOutcome)
    (l : List Task) (t : Task) (ev : CalendarEvent) (m : String)
    (hall : ∀ x ∈ l, (mkEvent x).isSome) (ht : t ∈ l)
    (hev : mkEvent t = some ev) (hp : provider ev = .otherError m) :
    taskErrLog t m ∈ loopErrors provider l := by
  induction l with
  | nil => cases ht
  | cons x xs ih =>
    have hxs : ∀ y ∈ xs, (mkEvent y).isSome :=
      fun y hy => hall y (List.mem_cons_of_mem x hy)
    rcases List.mem_cons.mp ht with rfl | ht'
    · simp [loopErrors, hev, hp]
    · obtain ⟨ev', hev'⟩ :=
        Option.isSome_iff_exists.mp (hall x (List.mem_cons_self x xs))
      cases hp' : provider ev' with
      | created => simpa [loopErrors, hev', hp'] using ih hxs ht'
      | conflict409 => simpa [loopErrors, hev', hp'] using ih hxs ht'
      | otherError m' =>
        simp only [loopErrors, hev', hp']
        exact List.mem_cons_of_mem _ (ih hxs ht')

/-- A non-empty user id passes the `!uid` guard. -/
theorem uid_beq_false (uid : String) (h : uid ≠ "") : (uid == "") = false :=
  beq_eq_false_iff_ne.mpr h

/-- Characterization of a successful `POST /api/sync-calendar` run:
valid credential, tasks document present, every eligible task builds
its event. -/
theorem syncCalendar_ok (uid : String) (huid : uid ≠ "") (cred : CredDoc)
    (tok : GoogleCalendarTokens) (hcred : cred.googleCalendar = some tok)
    (td : TasksDoc) (provider : CalendarEvent → InsertOutcome)
    (hparse : ∀ t ∈ tasksToSync (td.list.getD []), (mkEvent t).isSome) :
    syncCalendar uid (some cred) (some td) provider =
      { response := ⟨200, syncCompleteMsg uid
            (createdCount provider (tasksToSync (td.list.getD [])))⟩
        attempts := (tasksToSync (td.list.getD [])).filterMap mkEvent
        taskErrors := loopErrors provider (tasksToSync (td.list.getD []))
        readTasksStore := true } := by
  simp only [syncCalendar, uid_beq_false uid huid, Bool.false_eq_true,
    if_false, hcred, syncLoop_ok provider _ hparse, Nat.zero_add,
    List.nil_append]

/-- Characterization of an aborted `POST /api/sync-calendar` run: one
eligible task fails to build its event, the whole handler responds 500
and the tasks after it are never attempted. -/
theorem syncCalendar_abort (uid : String) (huid : uid ≠ "") (cred : CredDoc)
    (tok : GoogleCalendarTokens) (hcred : cred.googleCalendar = some tok)
    (td : TasksDoc) (provider : CalendarEvent → InsertOutcome)
    (pre : List Task) (bad : Task) (post : List Task)
    (hsplit : tasksToSync (td.list.getD []) = pre ++ bad :: post)
    (hpre : ∀ t ∈ pre, (mkEvent t).isSome) (hbad : mkEvent bad = none) :
    syncCalendar uid (some cred) (some td) provider =
      { response := ⟨500, "Sync failed."⟩
        attempts := pre.filterMap mkEvent
        taskErrors := loopErrors provider pre
        readTasksStore := true } := by
  simp only [syncCalendar, uid_beq_false uid huid, Bool.false_eq_true,
    if_false, hcred, hsplit, syncLoop_abort provider pre bad post hpre hbad,
    List.nil_append]

-- Claim theorems -------------------------------------------------------------

/-- C1: for every task, the derived calendar event identifier equals
the string "momentum" followed by the task id with every character
outside [A-Za-z0-9] removed; in particular, for task id "abc-123!@#"
the derived event id is "momentumabc123", and deriving the identifier
twice from the same task id yields the same string. -/
theorem C1_event_identifier :
    (∀ t : Task, eventId t = "momentum" ++ sanitize t.id) ∧
    (∀ t : Task, t.id = "abc-123!@#" → eventId t = "momentumabc123") ∧
    (∀ t u : Task, t.id = u.id → eventId t = eventId u) := by
  refine ⟨fun t => ?_, fun t h => ?_, fun t u h => ?_⟩
  · simp only [eventId, sanitize, replaceNonAlnum_eq_filter]
  · simp only [eventId, h]
    rfl
  · simp only [eventId, h]

/-- Concrete instance of C1: the example task id of the specification. -/
theorem C1_event_identifier_witness :
    eventId { id := "abc-123!@#", text := "demo", dueDate := "2024-01-01",
              startTime := some "09:00", endTime := some "10:00",
              category := none, completed := false } = "momentumabc123" :=
  C1_event_identifier.2.1 _ rfl

/-- C2: the task filter produces exactly the subsequence of tasks with
a present (non-empty) startTime, a present endTime and completed
false: membership is an iff against that predicate, the output is a
sublist of the input (relative order preserved), and the empty input
yields the empty output. -/
theorem C2_filter_correctness :
    (∀ (l : List Task) (t : Task),
        t ∈ tasksToSync l ↔
          t ∈ l ∧ presentField t.startTime ∧ presentField t.endTime ∧
            t.completed = false) ∧
    (∀ l : List Task, (tasksToSync l).Sublist l) ∧
    tasksToSync [] = [] := by
  refine ⟨fun l t => ?_, fun l => List.filter_sublist l, rfl⟩
  rw [tasksToSync, List.mem_filter, eligible]
  simp only [Bool.and_eq_true, fieldTruthy_iff, Bool.not_eq_eq_eq_not,
    Bool.not_true, and_assoc]

/-- C3 counterexample: three eligible tasks where the second has the
unparseable dueDate "not-a-date".  The claim says the sync records one
error entry for the second task and still attempts the third; in fact
the handler records NO per-task error entry, attempts only the first
task, and aborts the whole sync with a 500 response, because the
toISOString failure is raised outside the per-task try/catch. -/
theorem C3_counterexample :
    ¬((syncCalendar "u1" (some demoCred) (some ⟨some [dt1, dt2bad, dt3]⟩)
          (fun _ => .created)).taskErrors.length = 1 ∧
      "momentumt3" ∈ (syncCalendar "u1" (some demoCred)
          (some ⟨some [dt1, dt2bad, dt3]⟩)
          (fun _ => .created)).attempts.map CalendarEvent.id) ∧
    (syncCalendar "u1" (some demoCred) (some ⟨some [dt1, dt2bad, dt3]⟩)
        (fun _ => .created)).taskErrors = [] ∧
    (syncCalendar "u1" (some demoCred) (some ⟨some [dt1, dt2bad, dt3]⟩)
        (fun _ => .created)).attempts.map CalendarEvent.id = ["momentumt1"] ∧
    (syncCalendar "u1" (some demoCred) (some ⟨some [dt1, dt2bad, dt3]⟩)
        (fun _ => .created)).response = ⟨500, "Sync failed."⟩ := by
  decide

/-- C3 (amended): a task whose dueDate/startTime/endTime fail to parse
is NOT isolated.  If the eligible tasks split as `pre ++ bad :: post`
with every task of `pre` mapping to an event and `bad` failing to,
the whole sync aborts with a 500 "Sync failed." response: exactly the
tasks of `pre` are attempted (tasks after `bad` never are), and no
per-task error entry is recorded for `bad`. -/
theorem C3_parse_failure_aborts (uid : String) (huid : uid ≠ "")
    (cred : CredDoc) (tok : GoogleCalendarTokens)
    (hcred : cred.googleCalendar = some tok) (td : TasksDoc)
    (provider : CalendarEvent → InsertOutcome)
    (pre : List Task) (bad : Task) (post : List Task)
    (hsplit : tasksToSync (td.list.getD []) = pre ++ bad :: post)
    (hpre : ∀ t ∈ pre, (mkEvent t).isSome) (hbad : mkEvent bad = none) :
    syncCalendar uid (some cred) (some td) provider =
      { response := ⟨500, "Sync failed."⟩
        attempts := pre.filterMap mkEvent
        taskErrors := loopErrors provider pre
        readTasksStore := true } :=
  syncCalendar_abort uid huid cred tok hcred td provider pre bad post
    hsplit hpre hbad

/-- Witness for C3 (amended) at the concrete three-task scenario. -/
theorem C3_parse_failure_aborts_witness :
    syncCalendar "u1" (some demoCred) (some ⟨some [dt1, dt2bad, dt3]⟩)
        (fun _ => .created) =
      { response := ⟨500, "Sync failed."⟩
        attempts := [dt1].filterMap mkEvent
        taskErrors := loopErrors (fun _ => .created) [dt1]
        readTasksStore := true } :=
  C3_parse_failure_aborts "u1" (by decide) demoCred
    { email := "u@example.com", access_token := "tok", refresh_token := "ref" }
    rfl ⟨some [dt1, dt2bad, dt3]⟩ (fun _ => .created)
    [dt1] dt2bad [dt3] (by decide) (by decide) (by decide)

/-- C4 counterexample: one eligible task whose insert fails with a
non-409 error.  The claim says the failure is recorded in the returned
result; in fact the returned HTTP response is identical to that of a
failure-free run (a 200 with only the created count), so the response
carries no per-task error list at all — the failure only reaches the
console log. -/
theorem C4_counterexample :
    (syncCalendar "u1" (some demoCred) (some ⟨some [dt1]⟩)
        (fun _ => .otherError "boom")).response =
      (syncCalendar "u1" (some demoCred) (some ⟨some [dt1]⟩)
        (fun _ => .conflict409)).response ∧
    (syncCalendar "u1" (some demoCred) (some ⟨some [dt1]⟩)
        (fun _ => .otherError "boom")).response =
      ⟨200, "Sync complete for u1. 0 new events created."⟩ ∧
    (syncCalendar "u1" (some demoCred) (some ⟨some [dt1]⟩)
        (fun _ => .otherError "boom")).taskErrors =
      ["Error syncing task t1: boom"] := by
  decide

/-- C4 (amended): when an insert fails for a reason other than the
already-exists conflict, the failure is recorded only in the console
error log (`taskErrors`), processing continues with the next task
(every eligible task is attempted), and the sync does not abort: the
response is the 200 success message carrying only the created count,
with no error list in it. -/
theorem C4_provider_error_logged (uid : String) (huid : uid ≠ "")
    (cred : CredDoc) (tok : GoogleCalendarTokens)
    (hcred : cred.googleCalendar = some tok) (td : TasksDoc)
    (provider : CalendarEvent → InsertOutcome)
    (hparse : ∀ t ∈ tasksToSync (td.list.getD []), (mkEvent t).isSome) :
    (syncCalendar uid (some cred) (some td) provider).response =
      ⟨200, syncCompleteMsg uid
        (createdCount provider (tasksToSync (td.list.getD [])))⟩ ∧
    (syncCalendar uid (some cred) (some td) provider).attempts.length =
      (tasksToSync (td.list.getD [])).length ∧
    (∀ t ev m, t ∈ tasksToSync (td.list.getD []) → mkEvent t = some ev →
      provider ev = .otherError m →
      taskErrLog t m ∈ (syncCalendar uid (some cred) (some td) provider).taskErrors) := by
  rw [syncCalendar_ok uid huid cred tok hcred td provider hparse]
  refine ⟨rfl, length_filterMap_mkEvent _ hparse, fun t ev m ht hev hp => ?_⟩
  exact loopErrors_mem provider _ t ev m hparse ht hev hp

/-- The event `mkEvent` builds for `dt1`. -/
def dt1Event : CalendarEvent :=
  { summary := "first"
    description := "Synced from Momentum: Normal Task"
    startDateTime := ⟨2024, 1, 1, 9, 0⟩
    startTimeZone := "Asia/Kolkata"
    endDateTime := ⟨2024, 1, 1, 10, 0⟩
    endTimeZone := "Asia/Kolkata"
    id := "momentumt1" }

/-- Witness for C4 (amended): a single failing task is attempted,
its error line is logged, and the response still reports success with
zero created. -/
theorem C4_provider_error_logged_witness :
    (syncCalendar "u1" (some demoCred) (some ⟨some [dt1]⟩)
        (fun _ => .otherError "boom")).response =
      ⟨200, syncCompleteMsg "u1"
        (createdCount (fun _ => .otherError "boom") (tasksToSync [dt1]))⟩ ∧
    (syncCalendar "u1" (some demoCred) (some ⟨some [dt1]⟩)
        (fun _ => .otherError "boom")).attempts.length =
      (tasksToSync [dt1]).length ∧
    taskErrLog dt1 "boom" ∈ (syncCalendar "u1" (some demoCred)
        (some ⟨some [dt1]⟩) (fun _ => .otherError "boom")).taskErrors :=
  ⟨(C4_provider_error_logged "u1" (by decide) demoCred
      { email := "u@example.com", access_token := "tok", refresh_token := "ref" }
      rfl ⟨some [dt1]⟩ (fun _ => .otherError "boom") (by decide)).1,
   (C4_provider_error_logged "u1" (by decide) demoCred
      { email := "u@example.com", access_token := "tok", refresh_token := "ref" }
      rfl ⟨some [dt1]⟩ (fun _ => .otherError "boom") (by decide)).2.1,
   (C4_provider_error_logged "u1" (by decide) demoCred
      { email := "u@example.com", access_token := "tok", refresh_token := "ref" }
      rfl ⟨some [dt1]⟩ (fun _ => .otherError "boom") (by decide)).2.2
     dt1 dt1Event "boom" (by decide) (by decide) rfl⟩

/-- C5: an insert failing with the already-exists conflict (409) is
treated as success: it is not counted as created, not retried (each
eligible task yields exactly one insert attempt), and not added to the
error log.  Re-running sync for a user all of whose events already
exist yields a 200 response reporting zero new creations and an empty
error log. -/
theorem C5_conflict_idempotence (uid : String) (huid : uid ≠ "")
    (cred : CredDoc) (tok : GoogleCalendarTokens)
    (hcred : cred.googleCalendar = some tok) (td : TasksDoc)
    (hparse : ∀ t ∈ tasksToSync (td.list.getD []), (mkEvent t).isSome) :
    (syncCalendar uid (some cred) (some td)
        (fun _ => .conflict409)).response = ⟨200, syncCompleteMsg uid 0⟩ ∧
    (syncCalendar uid (some cred) (some td)
        (fun _ => .conflict409)).taskErrors = [] ∧
    (syncCalendar uid (some cred) (some td)
        (fun _ => .conflict409)).attempts.length =
      (tasksToSync (td.list.getD [])).length := by
  rw [syncCalendar_ok uid huid cred tok hcred td (fun _ => .conflict409) hparse]
  refine ⟨?_, ?_, length_filterMap_mkEvent _ hparse⟩
  · rw [createdCount_conflict]
  · rw [loopErrors_conflict]

/-- Witness for C5: one eligible task whose event already exists. -/
theorem C5_conflict_idempotence_witness :
    (syncCalendar "u1" (some demoCred) (some ⟨some [dt1]⟩)
        (fun _ => .conflict409)).response = ⟨200, syncCompleteMsg "u1" 0⟩ ∧
    (syncCalendar "u1" (some demoCred) (some ⟨some [dt1]⟩)
        (fun _ => .conflict409)).taskErrors = [] ∧
    (syncCalendar "u1" (some demoCred) (some ⟨some [dt1]⟩)
        (fun _ => .conflict409)).attempts.length =
      (tasksToSync [dt1]).length :=
  C5_conflict_idempotence "u1" (by decide) demoCred
    { email := "u@example.com", access_token := "tok", refresh_token := "ref" }
    rfl ⟨some [dt1]⟩ (by decide)

/-- C6: when the credential record is absent, or present but lacking
the `googleCalendar` sub-structure, sync fails fast with the 404
not-found outcome and never reads the task store (the result is the
same for every task document and provider, and `readTasksStore` stays
false). -/
theorem C6_no_credential (uid : String) (huid : uid ≠ "")
    (credDoc : Option CredDoc)
    (h : credDoc = none ∨ ∃ cd, credDoc = some cd ∧ cd.googleCalendar = none)
    (tasksDoc : Option TasksDoc) (provider : CalendarEvent → InsertOutcome) :
    syncCalendar uid credDoc tasksDoc provider =
      { response := ⟨404, "User has not connected Google Calendar."⟩
        attempts := [], taskErrors := [], readTasksStore := false } := by
  rcases h with rfl | ⟨cd, rfl, hcd⟩
  · simp [syncCalendar, uid_beq_false uid huid]
  · simp [syncCalendar, uid_beq_false uid huid, hcd]

/-- Witness for C6: user "u2" with no credential record at all. -/
theorem C6_no_credential_witness :
    syncCalendar "u2" none (some ⟨some [dt1]⟩) (fun _ => .created) =
      { response := ⟨404, "User has not connected Google Calendar."⟩
        attempts := [], taskErrors := [], readTasksStore := false } :=
  C6_no_credential "u2" (by decide) none (Or.inl rfl)
    (some ⟨some [dt1]⟩) (fun _ => .created)

/-- C7: end-to-end scenario.  User "u1" has a valid credential and the
single eligible task {id:"t1", dueDate:"2024-01-01", startTime:"09:00",
endTime:"10:00", completed:false}; sync issues exactly one insert
attempt, whose event id is "momentumt1" and whose start/end date-times
are 2024-01-01T09:00 and 2024-01-01T10:00 in the configured fixed
time zone, and the result reports one creation and an empty error
log. -/
theorem C7_end_to_end :
    syncCalendar "u1" (some demoCred) (some ⟨some [dt1]⟩)
        (fun _ => .created) =
      { response := ⟨200, "Sync complete for u1. 1 new events created."⟩
        attempts := [{ summary := "first"
                       description := "Synced from Momentum: Normal Task"
                       startDateTime := ⟨2024, 1, 1, 9, 0⟩
                       startTimeZone := configuredTimeZone
                       endDateTime := ⟨2024, 1, 1, 10, 0⟩
                       endTimeZone := configuredTimeZone
                       id := "momentumt1" }]
        taskErrors := []
        readTasksStore := true } := by
  decide

/-- C8: the fan-out scheduler derives the owning user id of each
discovered settings document and deduplicates, so each unique user is
triggered exactly once even if it appears in several documents: any
user occurring among the discovered parent ids occurs exactly once in
the issued triggers, and the triggered ids are exactly the discovered
parent ids. -/
theorem C8_dedup_unique_trigger (secret : String) (docs : List SettingsDoc)
    (syncOutcome : String → HttpResponse) (uid : String)
    (h : uid ∈ (docs.filter (fun d => d.accessToken != "")).map
      SettingsDoc.parentUid) :
    ((syncAllUsers ("Bearer " ++ secret) secret docs
        syncOutcome).triggers.map Prod.fst).count uid = 1 ∧
    ∀ v, (v ∈ (syncAllUsers ("Bearer " ++ secret) secret docs
        syncOutcome).triggers.map Prod.fst ↔
      v ∈ (docs.filter (fun d => d.accessToken != "")).map
        SettingsDoc.parentUid) := by
  have hguard : (("Bearer " ++ secret) != ("Bearer " ++ secret)) = false := by
    simp
  have hemp : (docs.filter (fun d => d.accessToken != "")).isEmpty = false := by
    rcases List.mem_map.mp h with ⟨d, hd, rfl⟩
    simpa [List.isEmpty_iff] using List.ne_nil_of_mem hd
  have hmap : (syncAllUsers ("Bearer " ++ secret) secret docs
      syncOutcome).triggers.map Prod.fst =
      jsSetDedup ((docs.filter (fun d => d.accessToken != "")).map
        SettingsDoc.parentUid) := by
    simp [syncAllUsers, hguard, hemp, List.map_map, Function.comp_def]
  rw [hmap]
  exact ⟨List.count_eq_one_of_mem (jsSetDedup_nodup _)
      ((jsSetDedup_mem _ _).mpr h),
    fun v => jsSetDedup_mem _ v⟩

/-- Witness for C8: two credential documents both resolving to "u1"
produce exactly one trigger for "u1". -/
theorem C8_dedup_unique_trigger_witness :
    ((syncAllUsers ("Bearer " ++ "s") "s"
        [⟨"u1", "tokA"⟩, ⟨"u1", "tokB"⟩]
        (fun _ => ⟨200, "ok"⟩)).triggers.map Prod.fst).count "u1" = 1 :=
  (C8_dedup_unique_trigger "s" [⟨"u1", "tokA"⟩, ⟨"u1", "tokB"⟩]
    (fun _ => ⟨200, "ok"⟩) "u1" (by decide)).1

/-- C9: the scheduler issues one fire-and-forget trigger per unique
discovered user and never consults their outcomes: its response is
identical under any two outcome assignments (no sync failure blocks or
fails it), the triggered ids are duplicate-free, and with valid
authorization and a non-empty discovery it responds 200 with the
triggered-count message. -/
theorem C9_fire_and_forget (authHeader secret : String)
    (docs : List SettingsDoc) (o1 o2 : String → HttpResponse) :
    (syncAllUsers authHeader secret docs o1).response =
      (syncAllUsers authHeader secret docs o2).response ∧
    ((syncAllUsers authHeader secret docs o1).triggers.map Prod.fst).Nodup ∧
    (authHeader = "Bearer " ++ secret →
      (docs.filter (fun d => d.accessToken != "")) ≠ [] →
      (syncAllUsers authHeader secret docs o1).triggers.map Prod.fst =
        jsSetDedup ((docs.filter (fun d => d.accessToken != "")).map
          SettingsDoc.parentUid) ∧
      (syncAllUsers authHeader secret docs o1).response =
        ⟨200, "Sync triggered for " ++
          toString (syncAllUsers authHeader secret docs o1).triggers.length ++
          " users."⟩) := by
  by_cases hauth : authHeader = "Bearer " ++ secret
  · subst hauth
    have hguard : (("Bearer " ++ secret) != ("Bearer " ++ secret)) = false := by
      simp
    by_cases hemp : (docs.filter (fun d => d.accessToken != "")).isEmpty
    · have hnil : docs.filter (fun d => d.accessToken != "") = [] := by
        simpa [List.isEmpty_iff] using hemp
      refine ⟨by simp [syncAllUsers, hguard, hemp], by simp [syncAllUsers, hguard, hemp],
        fun _ hne => absurd hnil hne⟩
    · have hemp' : (docs.filter (fun d => d.accessToken != "")).isEmpty = false := by
        simpa using hemp
      refine ⟨by simp [syncAllUsers, hguard, hemp'], ?_, fun _ _ => ⟨?_, ?_⟩⟩
      · have hmap : (syncAllUsers ("Bearer " ++ secret) secret docs
            o1).triggers.map Prod.fst =
            jsSetDedup ((docs.filter (fun d => d.accessToken != "")).map
              SettingsDoc.parentUid) := by
          simp [syncAllUsers, hguard, hemp', List.map_map, Function.comp_def]
        rw [hmap]
        exact jsSetDedup_nodup _
      · simp [syncAllUsers, hguard, hemp', List.map_map, Function.comp_def]
      · simp [syncAllUsers, hguard, hemp', List.map_map, Function.comp_def]
  · have hguard : (authHeader != "Bearer " ++ secret) = true := by
      simpa [bne_iff_ne] using hauth
    exact ⟨by simp [syncAllUsers, hguard], by simp [syncAllUsers, hguard],
      fun he _ => absurd he hauth⟩

/-- Witness for C9: concrete scheduler run with two outcome
assignments, one of which fails every sync; the authorization and
non-empty-discovery hypotheses are discharged concretely. -/
theorem C9_fire_and_forget_witness :
    ((syncAllUsers ("Bearer " ++ "s") "s" [⟨"u1", "tokA"⟩]
        (fun _ => ⟨500, "Sync failed."⟩)).response =
      (syncAllUsers ("Bearer " ++ "s") "s" [⟨"u1", "tokA"⟩]
        (fun _ => ⟨200, "ok"⟩)).response) ∧
    ((syncAllUsers ("Bearer " ++ "s") "s" [⟨"u1", "tokA"⟩]
        (fun _ => ⟨500, "Sync failed."⟩)).triggers.map Prod.fst =
      jsSetDedup (([⟨"u1", "tokA"⟩] : List SettingsDoc).filter
        (fun d => d.accessToken != "") |>.map SettingsDoc.parentUid) ∧
      (syncAllUsers ("Bearer " ++ "s") "s" [⟨"u1", "tokA"⟩]
        (fun _ => ⟨500, "Sync failed."⟩)).response =
        ⟨200, "Sync triggered for " ++
          toString (syncAllUsers ("Bearer " ++ "s") "s" [⟨"u1", "tokA"⟩]
            (fun _ => ⟨500, "Sync failed."⟩)).triggers.length ++ " users."⟩) :=
  ⟨(C9_fire_and_forget ("Bearer " ++ "s") "s" [⟨"u1", "tokA"⟩]
      (fun _ => ⟨500, "Sync failed."⟩) (fun _ => ⟨200, "ok"⟩)).1,
   (C9_fire_and_forget ("Bearer " ++ "s") "s" [⟨"u1", "tokA"⟩]
      (fun _ => ⟨500, "Sync failed."⟩) (fun _ => ⟨200, "ok"⟩)).2.2
     rfl (by decide)⟩

/-- C10: a task document that exists but has no `list` field is
treated as the empty task collection: sync completes as a zero-work
success, responding 200 with zero created events, no insert attempt
and no error. -/
theorem C10_missing_list_field (uid : String) (huid : uid ≠ "")
    (cred : CredDoc) (tok : GoogleCalendarTokens)
    (hcred : cred.googleCalendar = some tok)
    (provider : CalendarEvent → InsertOutcome) :
    syncCalendar uid (some cred) (some ⟨none⟩) provider =
      { response := ⟨200, syncCompleteMsg uid 0⟩
        attempts := [], taskErrors := [], readTasksStore := true } := by
  have h := syncCalendar_ok uid huid cred tok hcred ⟨none⟩ provider
    (by intro t ht; simp [tasksToSync] at ht)
  simpa [tasksToSync, createdCount, loopErrors] using h

/-- Witness for C10: user "u1" with a valid credential and a tasks
document lacking the `list` field. -/
theorem C10_missing_list_field_witness :
    syncCalendar "u1" (some demoCred) (some ⟨none⟩) (fun _ => .created) =
      { response := ⟨200, syncCompleteMsg "u1" 0⟩
        attempts := [], taskErrors := [], readTasksStore := true } :=
  C10_missing_list_field "u1" (by decide) demoCred
    { email := "u@example.com", access_token := "tok", refresh_token := "ref" }
    rfl (fun _ => .created)

end Momentum
